import Mathlib

/-!
Verification of the Nyx Claude adapter (browser-extension content script).

This file gives a shallow embedding of the DOM-facing operations of
`src/pages/content/src/plugins/adapters/claude.adapter.ts` and of the chat
input handler `src/unnamed/part_000`, and settles the claims about them.

Strings are modelled as `List Char` (the field `String.data`), so that the
JavaScript string operations `includes`, `startsWith`-style regex tests and
equality become executable list functions.
-/

namespace Nyx

/-- Character lists stand in for JavaScript strings. -/
abbrev Str := List Char

/-- JavaScript `hay.includes(needle)`: `needle` occurs as a contiguous
substring of `hay`.  Used by `isSupported` for the hostname allow-list check
(`currentHost.includes(hostname)`, claude.adapter.ts line 364). -/
def strIncludes (needle hay : Str) : Bool :=
  match hay with
  | [] => needle.isEmpty
  | _ :: t => needle.isPrefixOf hay || strIncludes needle t

/-! ## URL support check (`ClaudeAdapter.isSupported`, claude.adapter.ts 356-393)

The four regular expressions of `supportedPatterns` are embedded by their
test semantics on whole URLs:
* a test with the shape `^L.*` (unanchored at the end, `.*` may match the
  empty string) succeeds exactly when the literal `L` occurs at the start
  of the input, so the first three patterns are literal start-of-string
  checks;
* the last pattern has both anchors and no wildcard, so it is string
  equality with the literal (JavaScript `$` without the `m` flag matches
  only at the very end of the input).
-/

/-- Literal of the regex `/^https:\/\/claude\.ai\/chat\/.*/`. -/
def chatPat : Str := "https://claude.ai/chat/".data

/-- Literal of the regex `/^https:\/\/claude\.ai\/new.*/`. -/
def newPat : Str := "https://claude.ai/new".data

/-- Literal of the regex `/^https:\/\/claude\.ai\/project\/.*/`. -/
def projectPat : Str := "https://claude.ai/project/".data

/-- Literal of the regex `/^https:\/\/claude\.ai$/`. -/
def rootPat : Str := "https://claude.ai".data

/-- The allow-list entry of `readonly hostnames = ['claude.ai']`. -/
def claudeHostname : Str := "claude.ai".data

/-- `ClaudeAdapter.isSupported` (claude.adapter.ts 356-393): the hostname
must contain an allow-list entry, and the full URL must pass one of the
four `supportedPatterns` tests. -/
def isSupported (host url : Str) : Bool :=
  let isClaudeHost := strIncludes claudeHostname host
  if !isClaudeHost then
    false
  else
    chatPat.isPrefixOf url || newPat.isPrefixOf url ||
      projectPat.isPrefixOf url || url == rootPat

/-! ## Text insertion (`ClaudeAdapter.insertText`, claude.adapter.ts 169-239;
`insertTextToChatInput`, part_000 42-108)

The adapter distinguishes two interaction models for the located chat input:
a plain `TEXTAREA` whose `value` is overwritten, and a `contenteditable`
region written through `document.execCommand('insertText', ...)` at a caret
collapsed to the end of the existing content (so each insertion appends). -/

/-- Notifications dispatched / emitted by the adapter operations. -/
inductive Ev where
  | inputEvent
  | changeEvent
  | dragEnterEvent
  | dragOverEvent
  | dropEvent
  | executionCompleted (toolName : String)
  | executionFailed (toolName : String)
deriving DecidableEq

/-- The paragraph separator `'\n\n'` placed between existing content and the
inserted text. -/
def newlineSep : Str := ['\n', '\n']

/-- The textarea branch value computation (claude.adapter.ts 199:
`currentText ? currentText + '\n\n' + text : text`; a JavaScript string is
falsy exactly when it is empty). -/
def textareaNewValue (current text : Str) : Str :=
  if current.isEmpty then text else current ++ newlineSep ++ text

/-- State of a `TEXTAREA` element as far as `insertText` touches it. -/
structure TextareaSt where
  value : Str
  selectionStart : Nat
  selectionEnd : Nat
deriving DecidableEq

/-- The textarea branch of `ClaudeAdapter.insertText` (claude.adapter.ts
197-206): write the combined value back, set both selection ends to the new
value length, dispatch an `input` and a `change` notification. -/
def insertTextTextarea (ta : TextareaSt) (text : Str) : TextareaSt × List Ev :=
  let newContent := textareaNewValue ta.value text
  (⟨newContent, newContent.length, newContent.length⟩, [Ev.inputEvent, Ev.changeEvent])

/-- The contenteditable branch content computation (claude.adapter.ts
206-215): the caret is collapsed to the end of the region, then
`execCommand('insertText', '\n\n')` runs only under
`currentText && currentText.trim() !== ''`, and finally the text itself is
inserted at the caret; both insertions append to the existing content.
JavaScript `trim` removes whitespace from both ends, so the trim test asks
for at least one non-whitespace character. -/
def contenteditableNewContent (current text : Str) : Str :=
  if !current.isEmpty && current.any (fun c => !c.isWhitespace) then
    current ++ newlineSep ++ text
  else
    current ++ text

/-- The contenteditable branch of `ClaudeAdapter.insertText` with its
dispatched notifications (claude.adapter.ts 206-222). -/
def insertTextContenteditable (current text : Str) : Str × List Ev :=
  (contenteditableNewContent current text, [Ev.inputEvent, Ev.changeEvent])

/-! ## File attachment (`ClaudeAdapter.attachFile`, claude.adapter.ts
290-354; `supportsFileUpload`, 395-412; `simulateFileDrop`, 1066-1104)

The DOM is abstracted to the two facts the code queries: whether an
`input[type="file"]` element is reachable and whether one of the drop-zone
selectors matches.  Fallible DOM calls are driven by an oracle recording
which of them would raise; every raise site sits inside a `try` block of the
source, and the models reproduce exactly which `catch` receives it. -/

/-- The part of the document state that `attachFile` inspects. -/
structure FileDom where
  fileInputPresent : Bool
  dropZonePresent : Bool
deriving DecidableEq

/-- Which fallible DOM calls of the attachment paths raise. -/
structure AttachOracle where
  inputAssignThrows : Bool
  dropDispatchThrows : Bool
deriving DecidableEq

/-- The oracle under which no DOM call raises. -/
def attachNoThrow : AttachOracle := ⟨false, false⟩

/-- `ClaudeAdapter.supportsFileUpload` (395-412): true iff a drop zone or a
file input is present. -/
def supportsFileUpload (d : FileDom) : Bool :=
  d.dropZonePresent || d.fileInputPresent

/-- `ClaudeAdapter.simulateFileDrop` (1066-1104): its own `try`/`catch`
returns false both when no drop zone matches and when a DOM call raises;
otherwise it dispatches `dragenter`, `dragover`, `drop` and returns true. -/
def simulateFileDrop (o : AttachOracle) (d : FileDom) : Bool × List Ev :=
  if !d.dropZonePresent then
    (false, [])
  else if o.dropDispatchThrows then
    (false, [])
  else
    (true, [Ev.dragEnterEvent, Ev.dragOverEvent, Ev.dropEvent])

/-- `ClaudeAdapter.attachFile` (290-354) for a call without an explicit
`options.inputElement`: reject empty files and unsupported pages, prefer the
direct file-input method, fall back to drag-and-drop simulation; every raise
inside the `try` body falls to the boundary `catch`, which emits a failure
event and returns false. -/
def attachFileOp (o : AttachOracle) (d : FileDom) (fileSize : Nat) : Bool × List Ev :=
  if fileSize = 0 then
    (false, [Ev.executionFailed "attachFile"])
  else if !supportsFileUpload d then
    (false, [Ev.executionFailed "attachFile"])
  else if d.fileInputPresent then
    if o.inputAssignThrows then
      (false, [Ev.executionFailed "attachFile"])
    else
      (true, [Ev.changeEvent, Ev.executionCompleted "attachFile"])
  else
    let dropResult := simulateFileDrop o d
    if dropResult.1 then
      (true, dropResult.2 ++ [Ev.executionCompleted "attachFile"])
    else
      (false, dropResult.2 ++ [Ev.executionFailed "attachFile"])

/-! ## Boundary catches of `insertText` and `submitForm`

`ClaudeAdapter.insertText` (169-239) locates the chat input outside its
`try` block with fixed, syntactically valid selectors (these queries cannot
raise); everything fallible (`focus`, `execCommand`, the event dispatches)
happens inside the `try`, whose `catch` emits `tool:execution-failed` and
returns false.  `ClaudeAdapter.submitForm` (242-287) is analogous with the
disabled and zero-size visibility pre-checks inside the `try`. -/

/-- The located chat input, by interaction model. -/
inductive ChatInput where
  | textareaInput (value : Str)
  | contenteditableInput (content : Str)
deriving DecidableEq

/-- Which fallible DOM calls of `insertText` raise. -/
structure InsertOracle where
  focusThrows : Bool
  execCommandThrows : Bool
  dispatchThrows : Bool
deriving DecidableEq

/-- The `try` body of `ClaudeAdapter.insertText` (195-232): `error` stands
for a raised DOM exception reaching the enclosing `catch`. -/
def insertTextAttempt (o : InsertOracle) (ci : ChatInput) : Except String (List Ev) :=
  if o.focusThrows then .error "focus"
  else
    match ci with
    | .textareaInput _ =>
      if o.dispatchThrows then .error "dispatchEvent"
      else .ok [Ev.inputEvent, Ev.changeEvent, Ev.executionCompleted "insertText"]
    | .contenteditableInput _ =>
      if o.execCommandThrows then .error "execCommand"
      else if o.dispatchThrows then .error "dispatchEvent"
      else .ok [Ev.inputEvent, Ev.changeEvent, Ev.executionCompleted "insertText"]

/-- `ClaudeAdapter.insertText` (169-239): element not found fails with an
emitted failure event; a raise inside the `try` body is caught at the
boundary, which also emits the failure event and returns false. -/
def insertTextOp (o : InsertOracle) (dom : Option ChatInput) : Bool × List Ev :=
  match dom with
  | none => (false, [Ev.executionFailed "insertText"])
  | some ci =>
    match insertTextAttempt o ci with
    | .ok evs => (true, evs)
    | .error _ => (false, [Ev.executionFailed "insertText"])

/-- The submit button state as read by `submitForm`. -/
structure FormBtn where
  disabledProp : Bool
  visible : Bool
deriving DecidableEq

/-- `ClaudeAdapter.submitForm` (242-287): not-found, disabled and invisible
buttons fail with an emitted failure event; a raising `click()` is caught at
the boundary with the same outcome. -/
def submitFormOp (clickThrows : Bool) (btn : Option FormBtn) : Bool × List Ev :=
  match btn with
  | none => (false, [Ev.executionFailed "submitForm"])
  | some b =>
    if b.disabledProp then (false, [Ev.executionFailed "submitForm"])
    else if !b.visible then (false, [Ev.executionFailed "submitForm"])
    else if clickThrows then (false, [Ev.executionFailed "submitForm"])
    else (true, [Ev.executionCompleted "submitForm"])

/-! ## The submit poll (`submitChatInput`, part_000 166-338)

The promise executor finds the submit button, installs a 200ms
`setInterval`, runs one immediate `tryClickingButton`, and then cancels the
interval only under `submitButton && !submitButton.disabled` (the
`disabled` property alone).  Each tick increments `elapsedTime`, runs
`tryClickingButton` again, and on budget exhaustion clears the interval and
falls back to a form-submit event or a synthetic Enter sequence.  A click
that succeeds resolves the promise with true but does not clear the
interval.  Time is discretised to ticks of 200ms; tick 0 is the immediate
pre-loop check. -/

/-- The submit button as seen by `findSubmitButton` at some tick. -/
structure Btn where
  disabledProp : Bool
  attrDisabled : Bool
  ariaDisabled : Bool
  disabledClass : Bool
deriving DecidableEq

/-- The `isDisabled` test of `tryClickingButton` (part_000 200-204). -/
def isDisabledBtn (b : Btn) : Bool :=
  b.disabledProp || b.attrDisabled || b.ariaDisabled || b.disabledClass

/-- A fully enabled button. -/
def enabledBtn : Btn := ⟨false, false, false, false⟩

/-- The environment of one `submitChatInput` run: the button returned by
`findSubmitButton` at each tick, whether `button.click()` raises at that
tick, and whether the chat input has an enclosing form. -/
structure SubmitEnv where
  find : Nat → Option Btn
  clickThrows : Nat → Bool
  formPresent : Bool

/-- Observable state of one `submitChatInput` run. -/
structure SubmitSt where
  resolved : Option Bool
  clicks : Nat
  formSubmits : Nat
  enterSims : Nat
  intervalActive : Bool
  elapsed : Nat
deriving DecidableEq

/-- `resolve(v)`: only the first settlement of the promise counts. -/
def resolveP (v : Bool) (s : SubmitSt) : SubmitSt :=
  if s.resolved.isNone then { s with resolved := some v } else s

/-- `tryClickingButton` (part_000 192-213): re-resolve the button; a vanished
button resolves false; a disabled button does nothing; an enabled one is
clicked (which may raise) and then the promise is resolved with true.  The
`error` result stands for a raised exception escaping the function. -/
def tryClickingButton (env : SubmitEnv) (k : Nat) (s : SubmitSt) :
    Except Unit SubmitSt :=
  match env.find k with
  | none => .ok (resolveP false s)
  | some b =>
    if isDisabledBtn b then .ok s
    else if env.clickThrows k then .error ()
    else .ok (resolveP true { s with clicks := s.clicks + 1 })

/-- The budget-exhaustion alternative methods (part_000 226-272): dispatch a
form submit event if a form encloses the input, otherwise a synthetic Enter
key sequence; both resolve true. -/
def fallbackSubmit (env : SubmitEnv) (s : SubmitSt) : SubmitSt :=
  if env.formPresent then resolveP true { s with formSubmits := s.formSubmits + 1 }
  else resolveP true { s with enterSims := s.enterSims + 1 }

/-- One `setInterval` callback at tick `k` (part_000 218-274): inactive
intervals do nothing; otherwise `elapsedTime` grows by 200 first, then
`tryClickingButton` runs — an exception there escapes the callback
uncaught, skipping the budget check, so the interval survives — and finally
an exhausted budget clears the interval and runs the alternative methods. -/
def tickStep (env : SubmitEnv) (maxWaitTime : Nat) (s : SubmitSt) (k : Nat) :
    SubmitSt :=
  if !s.intervalActive then s
  else
    let s1 := { s with elapsed := s.elapsed + 200 }
    match tryClickingButton env k s1 with
    | .error () => s1
    | .ok s2 =>
      if maxWaitTime ≤ s2.elapsed then
        fallbackSubmit env { s2 with intervalActive := false }
      else s2

/-- The synchronous executor phase of `submitChatInput` (part_000 187-330):
with no button found, go straight to the alternative methods with no
interval; with a button, install the interval, run the immediate
pre-loop `tryClickingButton` — an exception here is caught by the executor
`try`/`catch`, which resolves false without clearing the interval — and
then clear the interval iff the initially found button has a false
`disabled` property. -/
def submitInit (env : SubmitEnv) : SubmitSt :=
  let s0 : SubmitSt := ⟨none, 0, 0, 0, false, 0⟩
  match env.find 0 with
  | none => fallbackSubmit env s0
  | some b0 =>
    let s1 := { s0 with intervalActive := true }
    let s2 :=
      match tryClickingButton env 0 s1 with
      | .ok s => s
      | .error () => resolveP false s1
    if !b0.disabledProp then { s2 with intervalActive := false } else s2

/-- A whole run: the executor phase followed by `steps` interval ticks. -/
def submitRun (env : SubmitEnv) (maxWaitTime steps : Nat) : SubmitSt :=
  (List.range steps).foldl (fun s i => tickStep env maxWaitTime s (i + 1))
    (submitInit env)

/-- Environment of the C1 failing run: the submit button is found at every
tick, carries the `disabled` property at the pre-loop check, is fully
enabled from the first 200ms tick on, clicks never raise, and the chat
input has an enclosing form. -/
def envBecomesEnabled : SubmitEnv :=
  ⟨fun k => if k = 0 then some ⟨true, false, false, false⟩ else some enabledBtn,
    fun _ => false, true⟩

/-- Environment of the C8 counterexample: the button is found at every
tick, starts with the `disabled` property, is enabled from the first tick
on, and every `button.click()` raises. -/
def envClickRaises : SubmitEnv :=
  ⟨fun k => if k = 0 then some ⟨true, false, false, false⟩ else some enabledBtn,
    fun _ => true, true⟩

/-! ## Adapter lifecycle (`ClaudeAdapter` initialize / activate / deactivate /
cleanup, claude.adapter.ts 87-166, 605-765, 767-807, 867-889)

The document is reduced to the counts of the two injected singleton nodes
(`mcp-popover-container`, `mcp-claude-button-styles`) and to whether
`findButtonInsertionPoint` succeeds.  `pendingTimeouts` counts the live
`setTimeout` handles created by `waitForPageReady` (733-738) and by the
injection retry (758-759); the source never stores these handles in any
field of the adapter, which is why no cleanup path can cancel them. -/

/-- Adapter lifecycle status, owned by the superclass. -/
inductive Status where
  | uninitialized
  | initializing
  | active
  | inactive
  | disabled
deriving DecidableEq

/-- The instance fields of `ClaudeAdapter` relevant to the lifecycle
(claude.adapter.ts 56-76).  `currentStatus` is modelled from the spec: the
superclass `BaseAdapterPlugin` (file `base.adapter.ts`) is not among the
sources; per spec section 4.4 the `super` calls move it to `initializing`,
`active`, `inactive` and back to `uninitialized` respectively. -/
structure Adapter where
  currentStatus : Status
  urlCheckInterval : Bool
  popoverCheckInterval : Bool
  mcpPopoverContainer : Bool
  mutationObserver : Bool
  storeEventListenersSetup : Bool
  domObserversSetup : Bool
  uiIntegrationSetup : Bool
  claudeStylesInjected : Bool
deriving DecidableEq

/-- Document state seen by the lifecycle code. -/
structure PageDom where
  popoverNodes : Nat
  styleNodes : Nat
  insertionPoint : Bool
deriving DecidableEq

/-- One adapter instance together with the shared document and the
un-owned pending `setTimeout` handles. -/
structure World where
  adapter : Adapter
  dom : PageDom
  pendingTimeouts : Nat
deriving DecidableEq

/-- A freshly constructed adapter instance. -/
def freshAdapter : Adapter :=
  ⟨.uninitialized, false, false, false, false, false, false, false, false⟩

/-- A fresh instance on a supported page with no injected nodes. -/
def freshWorld : World := ⟨freshAdapter, ⟨0, 0, true⟩, 0⟩

/-- `injectClaudeButtonStyles` (610-629): a no-op under the injected flag;
otherwise any existing style node is removed before exactly one is
appended. -/
def injectClaudeButtonStyles (w : World) : World :=
  if w.adapter.claudeStylesInjected then w
  else
    { w with
      dom := { w.dom with styleNodes := 1 },
      adapter := { w.adapter with claudeStylesInjected := true } }

/-- `setupDOMObservers` (669-703): installs the mutation observer once. -/
def setupDOMObservers (w : World) : World :=
  if w.adapter.domObserversSetup then w
  else
    { w with adapter :=
      { w.adapter with mutationObserver := true, domObserversSetup := true } }

/-- `setupUIIntegration` (705-719): records the flag and always starts
`waitForPageReady`, whose executor synchronously schedules
`setTimeout(checkReady, 100)` — one pending handle. -/
def setupUIIntegration (w : World) : World :=
  { w with
    adapter := { w.adapter with uiIntegrationSetup := true },
    pendingTimeouts := w.pendingTimeouts + 1 }

/-- `injectMCPPopover` (867-889): a strict no-op when an element with id
`mcp-popover-container` already exists; otherwise creates the container,
mounts it and records the handle. -/
def injectMCPPopover (w : World) : World :=
  if w.dom.popoverNodes ≠ 0 then w
  else
    { w with
      dom := { w.dom with popoverNodes := w.dom.popoverNodes + 1 },
      adapter := { w.adapter with mcpPopoverContainer := true } }

/-- One `attemptInjection` of `injectMCPPopoverWithRetry` (742-765): no-op
when the container already exists; inject when an insertion point is found;
otherwise schedule a retry timeout while attempts remain. -/
def attemptInjection (attempt maxRetries : Nat) (w : World) : World :=
  if w.dom.popoverNodes ≠ 0 then w
  else if w.dom.insertionPoint then injectMCPPopover w
  else if attempt < maxRetries then
    { w with pendingTimeouts := w.pendingTimeouts + 1 }
  else w

/-- A scheduled `checkReady` of `waitForPageReady` (726-738) fires: the
handle is consumed; an available insertion point resolves the wait and runs
the first injection attempt; otherwise the check is rescheduled while
attempts remain. -/
def fireCheckReady (attempts maxAttempts : Nat) (w : World) : World :=
  if w.dom.insertionPoint then
    attemptInjection 1 5 { w with pendingTimeouts := w.pendingTimeouts - 1 }
  else if maxAttempts ≤ attempts then
    { w with pendingTimeouts := w.pendingTimeouts - 1 }
  else
    { w with pendingTimeouts := w.pendingTimeouts - 1 + 1 }

/-- A scheduled injection retry timeout (758-759) fires. -/
def fireRetryTimeout (attempt maxRetries : Nat) (w : World) : World :=
  attemptInjection attempt maxRetries
    { w with pendingTimeouts := w.pendingTimeouts - 1 }

/-- `initialize` (87-100): guarded no-op when already initializing or
active; otherwise records the URL, starts the URL poll and registers the
store event listeners. -/
def initializeRun (w : World) : World :=
  if w.adapter.currentStatus = .initializing ∨ w.adapter.currentStatus = .active then w
  else
    { w with adapter :=
      { w.adapter with
        currentStatus := .initializing,
        urlCheckInterval := true,
        storeEventListenersSetup := true } }

/-- `activate` (102-120): guarded no-op when already active; otherwise the
`super` call moves the status to active and the three setup routines run. -/
def activateRun (w : World) : World :=
  if w.adapter.currentStatus = .active then w
  else
    setupUIIntegration (setupDOMObservers (injectClaudeButtonStyles
      { w with adapter := { w.adapter with currentStatus := .active } }))

/-- `cleanupUIIntegration` (775-807): unmounts the render root, removes the
container found by id (at most one node), and nulls the handle field. -/
def cleanupUIIntegrationRun (w : World) : World :=
  { w with
    dom := { w.dom with popoverNodes := w.dom.popoverNodes - 1 },
    adapter := { w.adapter with mcpPopoverContainer := false } }

/-- `cleanupDOMObservers` (767-773): disconnects the mutation observer. -/
def cleanupDOMObserversRun (w : World) : World :=
  { w with adapter := { w.adapter with mutationObserver := false } }

/-- The reset of the three idempotency flags shared by `deactivate`
(131-133) and `cleanup` (162-164). -/
def resetSetupFlags (w : World) : World :=
  { w with adapter :=
    { w.adapter with
      storeEventListenersSetup := false,
      domObserversSetup := false,
      uiIntegrationSetup := false } }

/-- The style-sheet removal of `cleanup` (156-160, 165). -/
def removeClaudeStyles (w : World) : World :=
  { w with
    dom := { w.dom with styleNodes := 0 },
    adapter := { w.adapter with claudeStylesInjected := false } }

/-- The interval clearing of `cleanup` (144-152) together with the
spec-modelled `super.cleanup` status reset. -/
def clearIntervalsAndStatus (w : World) : World :=
  { w with adapter :=
    { w.adapter with
      currentStatus := .uninitialized,
      urlCheckInterval := false,
      popoverCheckInterval := false } }

/-- `deactivate` (122-139): guarded no-op when already inactive or
disabled; otherwise tears down the UI integration and observers and resets
the three idempotency flags. -/
def deactivateRun (w : World) : World :=
  if w.adapter.currentStatus = .inactive ∨ w.adapter.currentStatus = .disabled then w
  else
    resetSetupFlags (cleanupDOMObserversRun (cleanupUIIntegrationRun
      { w with adapter := { w.adapter with currentStatus := .inactive } }))

/-- `cleanup` (141-166): clears the two interval fields, tears down the UI
integration and observers, removes the style node and resets all flags.
The `pendingTimeouts` counter is untouched: the `checkReady` and retry
`setTimeout` handles were never stored in a field, so this method has
nothing to clear them with. -/
def cleanupRun (w : World) : World :=
  resetSetupFlags (removeClaudeStyles (cleanupDOMObserversRun
    (cleanupUIIntegrationRun (clearIntervalsAndStatus w))))

/-- The adapter operations of the C9 claim, as a reified alphabet. -/
inductive AdapterOp where
  | initializeOp
  | activateOp
  | deactivateOp
  | cleanupOp
  | checkReadyFires (attempts maxAttempts : Nat)
  | retryFires (attempt maxRetries : Nat)

/-- Interpreter for one adapter operation. -/
def applyOp : AdapterOp → World → World
  | .initializeOp, w => initializeRun w
  | .activateOp, w => activateRun w
  | .deactivateOp, w => deactivateRun w
  | .cleanupOp, w => cleanupRun w
  | .checkReadyFires a m, w => fireCheckReady a m w
  | .retryFires a m, w => fireRetryTimeout a m w

/-- A sequence of adapter operations, run left to right. -/
def runOps (ops : List AdapterOp) (w : World) : World :=
  ops.foldl (fun w op => applyOp op w) w

/-- The surviving direction of the C9 invariant. -/
def HandleInv (w : World) : Prop :=
  w.adapter.mcpPopoverContainer = true → w.dom.popoverNodes ≠ 0

/-! ## Theorems settling the claims, with their supporting lemmas and witnesses -/

/-- Appending a marker character that does not occur in `p`, together with an
arbitrary suffix, neither creates nor destroys a start-of-string match of the
literal `p`. -/
theorem isPrefixOf_append_mid (p l q : Str) (c : Char) (hc : c ∉ p) :
    p.isPrefixOf (l ++ c :: q) = p.isPrefixOf l := by
  induction p generalizing l with
  | nil => simp [List.isPrefixOf]
  | cons a as ih =>
    cases l with
    | nil =>
      have hac : a ≠ c := fun h => hc (h ▸ List.mem_cons_self a as)
      simp [List.isPrefixOf, hac]
    | cons b bs =>
      have hc' : c ∉ as := fun h => hc (List.mem_cons_of_mem a h)
      simp only [List.cons_append, List.isPrefixOf, List.append_eq]
      rw [ih bs hc']

/-- A URL carrying a query separator is never equal to the bare-root literal. -/
theorem append_query_ne_root (l q : Str) : (l ++ '?' :: q == rootPat) = false := by
  refine beq_eq_false_iff_ne.mpr fun h => ?_
  have hq : '?' ∈ rootPat := h ▸ List.mem_append_right l (List.mem_cons_self _ _)
  exact absurd hq (by decide)

/-- C2: `isSupported` is true iff the hostname contains the allow-list entry
and the full URL passes one of the four pattern tests (chat, new, project,
bare root); in particular it is true at `https://claude.ai/chat/abc` and
false at `https://claude.ai/settings`. -/
theorem isSupported_iff_patterns :
    (∀ host url : Str, isSupported host url = true ↔
      (strIncludes claudeHostname host = true ∧
        (chatPat.isPrefixOf url = true ∨ newPat.isPrefixOf url = true ∨
          projectPat.isPrefixOf url = true ∨ url = rootPat))) ∧
    isSupported "claude.ai".data "https://claude.ai/chat/abc".data = true ∧
    isSupported "claude.ai".data "https://claude.ai/settings".data = false := by
  refine ⟨fun host url => ?_, by decide, by decide⟩
  cases h : strIncludes claudeHostname host <;>
    simp [isSupported, h, beq_iff_eq, or_assoc]

/-- C3 counterexample: at the bare-root URL, appending a query string flips
`isSupported` from true to false (the last pattern is an exact-equality
test, not a path-based one). -/
theorem root_query_flips_isSupported :
    isSupported "claude.ai".data "https://claude.ai".data = true ∧
    isSupported "claude.ai".data ("https://claude.ai".data ++ '?' :: "x=1".data) = false := by
  constructor <;> decide

/-- C3 (amended): for every URL other than exactly the bare root
`https://claude.ai`, appending a query string never changes `isSupported`;
the bare root itself is the one exception (see
`root_query_flips_isSupported`). -/
theorem query_suffix_isSupported (host url q : Str) (h : url ≠ rootPat) :
    isSupported host (url ++ '?' :: q) = isSupported host url := by
  unfold isSupported
  rw [isPrefixOf_append_mid chatPat url q '?' (by decide),
    isPrefixOf_append_mid newPat url q '?' (by decide),
    isPrefixOf_append_mid projectPat url q '?' (by decide),
    append_query_ne_root url q, beq_eq_false_iff_ne.mpr h]

/-- Witness for `query_suffix_isSupported` at a concrete chat URL. -/
theorem query_suffix_isSupported_witness :
    isSupported claudeHostname ("https://claude.ai/chat/abc".data ++ '?' :: "q=1".data) =
      isSupported claudeHostname "https://claude.ai/chat/abc".data :=
  query_suffix_isSupported claudeHostname "https://claude.ai/chat/abc".data "q=1".data
    (by decide)

/-- C4: on a located textarea chat input, `insertText` with an empty current
value sets the value to exactly the given text (no leading separator), with
a non-empty current value sets it to `previous ++ '\n\n' ++ text`, places
both selection ends at the end of the new value, and dispatches an `input`
notification. -/
theorem insertText_textarea_value (ta : TextareaSt) (text : Str) :
    (ta.value = [] → (insertTextTextarea ta text).1.value = text) ∧
    (ta.value ≠ [] →
      (insertTextTextarea ta text).1.value = ta.value ++ newlineSep ++ text) ∧
    (insertTextTextarea ta text).1.selectionStart =
      (insertTextTextarea ta text).1.value.length ∧
    (insertTextTextarea ta text).1.selectionEnd =
      (insertTextTextarea ta text).1.value.length ∧
    Ev.inputEvent ∈ (insertTextTextarea ta text).2 := by
  refine ⟨fun h => ?_, fun h => ?_, rfl, rfl, by simp [insertTextTextarea]⟩
  · simp [insertTextTextarea, textareaNewValue, h]
  · simp [insertTextTextarea, textareaNewValue, List.isEmpty_iff, h]

/-- Witness for `insertText_textarea_value` at an empty and a non-empty
textarea. -/
theorem insertText_textarea_value_witness :
    (insertTextTextarea ⟨[], 0, 0⟩ "hi".data).1.value = "hi".data ∧
    (insertTextTextarea ⟨"ab".data, 2, 2⟩ "hi".data).1.value =
      "ab".data ++ newlineSep ++ "hi".data :=
  ⟨(insertText_textarea_value ⟨[], 0, 0⟩ "hi".data).1 rfl,
    (insertText_textarea_value ⟨"ab".data, 2, 2⟩ "hi".data).2.1 (by decide)⟩

/-- C10: the two interaction models disagree on whitespace-only existing
content: the textarea branch tests JavaScript truthiness (non-emptiness), so
a whitespace-only value still receives the `'\n\n'` separator, while the
contenteditable branch additionally trims, so whitespace-only content
receives no separator. -/
theorem whitespace_only_separator_disagreement (ws text : Str) (hne : ws ≠ [])
    (hws : ∀ c ∈ ws, c.isWhitespace) :
    textareaNewValue ws text = ws ++ newlineSep ++ text ∧
    contenteditableNewContent ws text = ws ++ text := by
  constructor
  · simp [textareaNewValue, List.isEmpty_iff, hne]
  · have hall : ws.any (fun c => !c.isWhitespace) = false := by
      simp only [List.any_eq_false, Bool.not_eq_true']
      intro c hc
      simpa using hws c hc
    simp [contenteditableNewContent, hall]

/-- Witness for `whitespace_only_separator_disagreement` at a single-space
content. -/
theorem whitespace_only_separator_disagreement_witness :
    textareaNewValue [' '] "hi".data = [' '] ++ newlineSep ++ "hi".data ∧
    contenteditableNewContent [' '] "hi".data = [' '] ++ "hi".data :=
  whitespace_only_separator_disagreement [' '] "hi".data (by decide)
    (by decide)

/-- C7: with no DOM call raising, `attachFile` returns false exactly when
the file is empty or neither method precondition holds (no file input and no
drop zone); a reachable file input yields the direct method (change
notification, true), and otherwise the drag-and-drop sequence goes to the
drop zone. -/
theorem attachFile_spec (d : FileDom) (fileSize : Nat) :
    ((attachFileOp attachNoThrow d fileSize).1 = false ↔
      (fileSize = 0 ∨ (d.fileInputPresent = false ∧ d.dropZonePresent = false))) ∧
    (fileSize ≠ 0 → d.fileInputPresent = true →
      (attachFileOp attachNoThrow d fileSize).1 = true ∧
        Ev.changeEvent ∈ (attachFileOp attachNoThrow d fileSize).2) ∧
    (fileSize ≠ 0 → d.fileInputPresent = false → d.dropZonePresent = true →
      (attachFileOp attachNoThrow d fileSize).1 = true ∧
        (attachFileOp attachNoThrow d fileSize).2 =
          [Ev.dragEnterEvent, Ev.dragOverEvent, Ev.dropEvent,
            Ev.executionCompleted "attachFile"]) := by
  obtain ⟨fi, dz⟩ := d
  refine ⟨?_, ?_, ?_⟩ <;>
    cases fi <;> cases dz <;>
      rcases Nat.eq_zero_or_pos fileSize with h | h <;>
        simp_all [attachFileOp, attachNoThrow, supportsFileUpload, simulateFileDrop,
          Nat.pos_iff_ne_zero]

/-- Witness for `attachFile_spec`: a non-empty file, a page with only a drop
zone. -/
theorem attachFile_spec_witness :
    (attachFileOp attachNoThrow ⟨false, true⟩ 3).1 = true ∧
    (attachFileOp attachNoThrow ⟨false, true⟩ 3).2 =
      [Ev.dragEnterEvent, Ev.dragOverEvent, Ev.dropEvent,
        Ev.executionCompleted "attachFile"] :=
  (attachFile_spec ⟨false, true⟩ 3).2.2 (by decide) rfl rfl

/-- C1 (code bug): with a wait budget of 600ms and a button that starts
disabled and is enabled from the first tick on, the run resolves true at
the first tick but the interval survives that click (second conjunct), the
button is clicked again on every following tick — three clicks in all —
and at budget exhaustion the form-submit fallback fires as well, the
interval being cancelled only then (first conjunct).  The claim that the
first successful click happens exactly once and cancels the poll
immediately is refuted by this run. -/
theorem submit_poll_not_cancelled_on_click :
    submitRun envBecomesEnabled 600 5 =
      { resolved := some true, clicks := 3, formSubmits := 1, enterSims := 0,
        intervalActive := false, elapsed := 600 } ∧
    submitRun envBecomesEnabled 600 1 =
      { resolved := some true, clicks := 1, formSubmits := 0, enterSims := 0,
        intervalActive := true, elapsed := 200 } := by
  constructor <;> decide

/-- C8 counterexample: a failure inside the 200ms polling callback is not
caught — with every click raising, ten ticks (2000ms, far past the 600ms
budget) leave the promise unresolved (neither false nor true), no failure
signalled, and the interval still active; so an internal failure of
`submitChatInput` does not resolve false. -/
theorem submit_tick_failure_unresolved :
    submitRun envClickRaises 600 10 =
      { resolved := none, clicks := 0, formSubmits := 0, enterSims := 0,
        intervalActive := true, elapsed := 2000 } := by
  decide

/-- C8 (amended): `insertText`, `submitForm` and `attachFile` catch every
internal failure at their own boundary, returning false together with an
emitted `tool:execution-failed` event; `submitChatInput` resolves false
when a failure hits its synchronous executor phase, but a failure inside a
polling callback is not caught and leaves the promise unresolved (see
`submit_tick_failure_unresolved`). -/
theorem public_ops_fail_closed :
    (∀ (o : InsertOracle) (dom : Option ChatInput),
      (insertTextOp o dom).1 = false →
        Ev.executionFailed "insertText" ∈ (insertTextOp o dom).2) ∧
    (∀ (clickThrows : Bool) (btn : Option FormBtn),
      (submitFormOp clickThrows btn).1 = false →
        Ev.executionFailed "submitForm" ∈ (submitFormOp clickThrows btn).2) ∧
    (∀ (o : AttachOracle) (d : FileDom) (fileSize : Nat),
      (attachFileOp o d fileSize).1 = false →
        Ev.executionFailed "attachFile" ∈ (attachFileOp o d fileSize).2) ∧
    (∀ (env : SubmitEnv) (b0 : Btn), env.find 0 = some b0 →
      isDisabledBtn b0 = false → env.clickThrows 0 = true →
        (submitInit env).resolved = some false) := by
  refine ⟨?_, ?_, ?_, ?_⟩
  · rintro ⟨f, e, dis⟩ (_ | (v | c)) h <;>
      cases f <;> cases e <;> cases dis <;>
        simp_all [insertTextOp, insertTextAttempt]
  · rintro ct (_ | ⟨dis, vis⟩) h
    · simp_all [submitFormOp]
    · cases dis <;> cases vis <;> cases ct <;> simp_all [submitFormOp]
  · rintro ⟨ia, dd⟩ ⟨fi, dz⟩ n h
    rcases Nat.eq_zero_or_pos n with hn | hn <;>
      cases fi <;> cases dz <;> cases ia <;> cases dd <;>
        simp_all [attachFileOp, supportsFileUpload, simulateFileDrop,
          Nat.pos_iff_ne_zero]
  · intro env b0 h0 hdis hct
    have hb : b0.disabledProp = false := by
      simp only [isDisabledBtn, Bool.or_eq_false_iff] at hdis
      exact hdis.1.1.1
    simp [submitInit, h0, tryClickingButton, hdis, hct, resolveP, hb]

/-- Witness for `public_ops_fail_closed`: a raising `focus` makes
`insertText` return false with a failure event; an executor-phase raising
click makes `submitChatInput` resolve false. -/
theorem public_ops_fail_closed_witness :
    Ev.executionFailed "insertText" ∈
      (insertTextOp ⟨true, false, false⟩ (some (.textareaInput []))).2 ∧
    (submitInit ⟨fun _ => some enabledBtn, fun _ => true, true⟩).resolved =
      some false :=
  ⟨public_ops_fail_closed.1 ⟨true, false, false⟩ (some (.textareaInput [])) (by decide),
    public_ops_fail_closed.2.2.2 ⟨fun _ => some enabledBtn, fun _ => true, true⟩
      enabledBtn rfl (by decide) rfl⟩

/-- C5: a mount attempt while the container is already present is a strict
no-op, a second `activate` while active is a strict no-op, and the
double-activation run — activate, page-ready check fires and mounts,
activate again, then any number of further injection attempts — has exactly
one `mcp-popover-container` element. -/
theorem activate_twice_one_popover :
    (∀ (w : World) (a r : Nat), w.dom.popoverNodes ≠ 0 → attemptInjection a r w = w) ∧
    (∀ w : World, w.adapter.currentStatus = .active → activateRun w = w) ∧
    (∀ n : Nat,
      ((attemptInjection 1 5)^[n]
        (activateRun (fireCheckReady 1 10 (activateRun freshWorld)))).dom.popoverNodes = 1) := by
  refine ⟨fun w a r h => by simp [attemptInjection, h], fun w h => by simp [activateRun, h], ?_⟩
  intro n
  induction n with
  | zero => decide
  | succ n ih =>
    rw [Function.iterate_succ_apply']
    simp [attemptInjection, ih]

/-- Witness for `activate_twice_one_popover`: a world already holding the
container, and the double-activation run after two extra attempts. -/
theorem activate_twice_one_popover_witness :
    attemptInjection 1 5 (injectMCPPopover freshWorld) = injectMCPPopover freshWorld ∧
    ((attemptInjection 1 5)^[2]
      (activateRun (fireCheckReady 1 10 (activateRun freshWorld)))).dom.popoverNodes = 1 :=
  ⟨activate_twice_one_popover.1 (injectMCPPopover freshWorld) 1 5 (by decide),
    activate_twice_one_popover.2.2 2⟩

/-- C6 (code bug): running `initialize`, `activate`, then `cleanup` before
the 100ms page-ready check fires does remove both injected nodes and both
interval fields, but the pending `checkReady` timeout survives `cleanup`
(the claim says every timer is cancelled), and when it later fires it
re-injects an `mcp-popover-container` node into the cleaned document. -/
theorem cleanup_leaves_pending_timeout :
    (cleanupRun (activateRun (initializeRun freshWorld))).pendingTimeouts = 1 ∧
    (cleanupRun (activateRun (initializeRun freshWorld))).dom.popoverNodes = 0 ∧
    (cleanupRun (activateRun (initializeRun freshWorld))).dom.styleNodes = 0 ∧
    (cleanupRun (activateRun (initializeRun freshWorld))).adapter.urlCheckInterval = false ∧
    (cleanupRun (activateRun (initializeRun freshWorld))).adapter.popoverCheckInterval = false ∧
    (fireCheckReady 1 10
      (cleanupRun (activateRun (initializeRun freshWorld)))).dom.popoverNodes = 1 := by
  decide

/-- C9 counterexample: a fresh instance activated on a document that
already contains an `mcp-popover-container` element (the code explicitly
expects colliding instances and checks the shared id before acting) ends
with a null handle while a container is mounted — the claimed `null iff
not mounted` equivalence fails. -/
theorem handle_null_with_mounted_container :
    (fireCheckReady 1 10
      (activateRun ⟨freshAdapter, ⟨1, 0, true⟩, 0⟩)).adapter.mcpPopoverContainer = false ∧
    (fireCheckReady 1 10
      (activateRun ⟨freshAdapter, ⟨1, 0, true⟩, 0⟩)).dom.popoverNodes ≠ 0 := by
  constructor <;> decide

/-- `injectMCPPopover` preserves the handle invariant. -/
theorem injectMCPPopover_inv (w : World) (h : HandleInv w) :
    HandleInv (injectMCPPopover w) := by
  unfold injectMCPPopover
  split
  · exact h
  · exact fun _ => by simp

/-- One injection attempt preserves the handle invariant. -/
theorem attemptInjection_inv (a r : Nat) (w : World) (h : HandleInv w) :
    HandleInv (attemptInjection a r w) := by
  unfold attemptInjection
  split
  · exact h
  · split
    · exact injectMCPPopover_inv w h
    · split <;> exact h

/-- `cleanupUIIntegration` nulls the handle, so the invariant holds
vacuously afterwards. -/
theorem cleanupUIIntegrationRun_inv (w : World) :
    HandleInv (cleanupUIIntegrationRun w) :=
  fun hf => absurd hf (by simp [cleanupUIIntegrationRun])

/-- The style, observer, flag and interval helpers leave both the handle
field and the container count unchanged. -/
theorem helpers_inv (w : World) (h : HandleInv w) :
    HandleInv (injectClaudeButtonStyles w) ∧ HandleInv (setupDOMObservers w) ∧
    HandleInv (setupUIIntegration w) ∧ HandleInv (resetSetupFlags w) ∧
    HandleInv (removeClaudeStyles w) ∧ HandleInv (clearIntervalsAndStatus w) ∧
    HandleInv (cleanupDOMObserversRun w) := by
  refine ⟨?_, ?_, h, h, h, h, h⟩
  · unfold injectClaudeButtonStyles
    split
    · exact h
    · exact h
  · unfold setupDOMObservers
    split
    · exact h
    · exact h

/-- Every adapter operation preserves the handle invariant. -/
theorem applyOp_inv (op : AdapterOp) (w : World) (h : HandleInv w) :
    HandleInv (applyOp op w) := by
  cases op with
  | initializeOp =>
    show HandleInv (initializeRun w)
    unfold initializeRun
    split
    · exact h
    · exact h
  | activateOp =>
    show HandleInv (activateRun w)
    unfold activateRun
    split
    · exact h
    · have h0 : HandleInv
        { w with adapter := { w.adapter with currentStatus := .active } } := h
      exact (helpers_inv _ ((helpers_inv _ ((helpers_inv _ h0).1)).2.1)).2.2.1
  | deactivateOp =>
    show HandleInv (deactivateRun w)
    unfold deactivateRun
    split
    · exact h
    · exact (helpers_inv _ ((helpers_inv _ (cleanupUIIntegrationRun_inv _)).2.2.2.2.2.2)).2.2.2.1
  | cleanupOp =>
    show HandleInv (cleanupRun w)
    exact (helpers_inv _ ((helpers_inv _
      ((helpers_inv _ (cleanupUIIntegrationRun_inv _)).2.2.2.2.2.2)).2.2.2.2.1)).2.2.2.1
  | checkReadyFires a m =>
    show HandleInv (fireCheckReady a m w)
    unfold fireCheckReady
    split
    · exact attemptInjection_inv 1 5 _ h
    · split
      · exact h
      · exact h
  | retryFires a m =>
    exact attemptInjection_inv a m _ h

/-- C9 (amended): the instance holds at most one handle (a single field),
and over every sequence of adapter operations from a fresh instance a
non-null handle implies a mounted `mcp-popover-container`; the converse
direction of the claimed `iff` is the part refuted by
`handle_null_with_mounted_container`. -/
theorem handle_nonnull_implies_mounted (ops : List AdapterOp) (d : PageDom) (p : Nat)
    (h : (runOps ops ⟨freshAdapter, d, p⟩).adapter.mcpPopoverContainer = true) :
    (runOps ops ⟨freshAdapter, d, p⟩).dom.popoverNodes ≠ 0 := by
  suffices hs : ∀ (l : List AdapterOp) (w : World), HandleInv w → HandleInv (runOps l w) by
    exact hs ops ⟨freshAdapter, d, p⟩ (fun hf => absurd hf (by simp [freshAdapter])) h
  intro l
  induction l with
  | nil => intro w hw; exact hw
  | cons op rest ih =>
    intro w hw
    exact ih (applyOp op w) (applyOp_inv op w hw)

/-- Witness for `handle_nonnull_implies_mounted`: activation followed by a
successful page-ready check mounts the container and sets the handle. -/
theorem handle_nonnull_implies_mounted_witness :
    (runOps [.activateOp, .checkReadyFires 1 10]
      ⟨freshAdapter, ⟨0, 0, true⟩, 0⟩).dom.popoverNodes ≠ 0 :=
  handle_nonnull_implies_mounted [.activateOp, .checkReadyFires 1 10] ⟨0, 0, true⟩ 0
    (by decide)

end Nyx

